import Mathlib

/-!
Verification of the OpenEndpoint object-storage server against its
natural-language specification.

The development shallowly embeds the relevant source components:

* `internal/metadata/store.go`   — the metadata record types;
* `internal/metadata/bbolt/bbolt.go` — the bbolt-backed metadata store
  (`BBoltStore`): each bbolt bucket ("buckets", "objects", "multipart",
  "parts", "versioning") is modelled as an association list sorted by key,
  mirroring the B+-tree's byte-lexicographic key order; `Put`, `Get`,
  `Delete` and cursor scans are modelled by `kvPut`, `kvGet`, `kvDelete`
  and `dropWhile`/`takeWhile` over that list.  JSON encode/decode
  (`mustEncode`/`mustDecode`) is the identity in the model: values are
  stored directly.  bbolt's `Bucket.Delete` on a missing key is a no-op
  returning a nil error, and inside a writable `db.Update` transaction
  `Put`/`Delete` on these pre-created buckets cannot fail, so store
  operations are modelled as total functions.
* `internal/locking` (ObjectLock) — retention / legal-hold gate.  Go's
  `time.Time` is modelled as `Int` (unix instant); `time.Now()` becomes an
  explicit `now` parameter; `a.Before(b)` is `a < b`.  The Go `error`
  results become explicit error enumerations.
* `internal/util.GenerateETag` — the 16 random bytes read from
  `crypto/rand` become an explicit `List Nat` argument.
* `internal/api/router.go` — the `DeleteObject` handler's construction of
  `engine.DeleteObjectOptions` from the HTTP request, modelled over the
  request's query and header lookup functions.
-/

/-! ## Metadata record types (internal/metadata/store.go) -/

/-- `metadata.BucketMetadata`. -/
structure BucketMetadata where
  Name : String
  CreationDate : Int
  Owner : String
  Region : String
deriving Repr, DecidableEq

/-- `metadata.PartInfo` (one entry of a client completion manifest). -/
structure PartInfo where
  PartNumber : Int
  ETag : String
  Size : Int
deriving Repr, DecidableEq

/-- `metadata.ObjectMetadata`. -/
structure ObjectMetadata where
  Key : String
  Bucket : String
  Size : Int
  ETag : String
  ContentType : String
  ContentEncoding : String
  CacheControl : String
  Metadata : List (String × String)
  StorageClass : String
  VersionID : String
  IsLatest : Bool
  IsDeleteMarker : Bool
  LastModified : Int
  Expires : Int
  Parts : List PartInfo
deriving Repr, DecidableEq

/-- `metadata.PartMetadata` (a staged part record). -/
structure PartMetadata where
  UploadID : String
  Key : String
  Bucket : String
  PartNumber : Int
  ETag : String
  Size : Int
  LastModified : Int
deriving Repr, DecidableEq

/-- `metadata.MultipartUploadMetadata` (an in-flight upload record). -/
structure MultipartUploadMetadata where
  UploadID : String
  Key : String
  Bucket : String
  Initiated : Int
  Metadata : List (String × String)
deriving Repr, DecidableEq

/-- `metadata.BucketVersioning`. -/
structure BucketVersioning where
  Status : String
deriving Repr, DecidableEq

/-! ## Ordered key-value model of a bbolt bucket

bbolt stores keys in byte order; Go compares strings byte-wise.  The model
compares character lists position-wise (`charListLt`), which agrees with
Go's byte order on the ASCII keys the store builds, and — unlike
`String.lt`'s instances — evaluates inside the kernel. -/

/-- Byte-wise "less than" on the character lists of two keys. -/
def charListLt : List Char → List Char → Bool
  | [], [] => false
  | [], _ :: _ => true
  | _ :: _, [] => false
  | a :: as, b :: bs =>
    if a.toNat < b.toNat then true
    else if b.toNat < a.toNat then false
    else charListLt as bs

/-- Go's `s < t` on strings (byte-lexicographic). -/
def strLt (a b : String) : Bool := charListLt a.data b.data

/-- Prefix test on character lists. -/
def charListPfx : List Char → List Char → Bool
  | [], _ => true
  | _ :: _, [] => false
  | a :: as, b :: bs => a = b && charListPfx as bs

/-- Go's `len(s) >= len(p) && s[:len(p)] == p` (is `p` a prefix of `s`). -/
def strHasPfx (s p : String) : Bool := charListPfx p.data s.data

/-- Lookup by exact key, as `bolt.Bucket.Get`. -/
def kvGet {V : Type} : List (String × V) → String → Option V
  | [], _ => none
  | (k', v) :: t, k => if k = k' then some v else kvGet t k

/-- Insert-or-replace keeping keys sorted, as `bolt.Bucket.Put` on the
B+-tree.  Replaces the value when the key is present, otherwise inserts at
the key's ordered position. -/
def kvPut {V : Type} : List (String × V) → String → V → List (String × V)
  | [], k, v => [(k, v)]
  | (k', v') :: t, k, v =>
    if strLt k k' then (k, v) :: (k', v') :: t
    else if k = k' then (k, v) :: t
    else (k', v') :: kvPut t k v

/-- Remove a key, as `bolt.Bucket.Delete` (a no-op when absent). -/
def kvDelete {V : Type} (l : List (String × V)) (k : String) : List (String × V) :=
  l.filter (fun kv => kv.1 ≠ k)

theorem charListLt_irrefl (l : List Char) : charListLt l l = false := by
  induction l with
  | nil => rfl
  | cons a as ih => simp [charListLt, ih]

theorem strLt_irrefl (s : String) : strLt s s = false := charListLt_irrefl s.data

theorem kvGet_kvPut_self {V : Type} (l : List (String × V)) (k : String) (v : V) :
    kvGet (kvPut l k v) k = some v := by
  induction l with
  | nil => simp [kvPut, kvGet]
  | cons hd t ih =>
    obtain ⟨k', v'⟩ := hd
    by_cases h1 : strLt k k'
    · simp [kvPut, kvGet, h1]
    · by_cases h2 : k = k'
      · subst h2
        simp [kvPut, kvGet, strLt_irrefl]
      · simp [kvPut, kvGet, h1, h2, ih]

theorem kvGet_kvDelete_self {V : Type} (l : List (String × V)) (k : String) :
    kvGet (kvDelete l k) k = none := by
  induction l with
  | nil => simp [kvDelete, kvGet]
  | cons hd t ih =>
    obtain ⟨k', v'⟩ := hd
    by_cases h : k' = k
    · simpa [kvDelete, h] using ih
    · have hne : k ≠ k' := fun hk => h hk.symm
      simpa [kvDelete, kvGet, List.filter_cons, h, hne] using ih

theorem kvGet_kvDelete_ne {V : Type} (l : List (String × V)) (k k' : String)
    (h : k ≠ k') : kvGet (kvDelete l k') k = kvGet l k := by
  induction l with
  | nil => simp [kvDelete, kvGet]
  | cons hd t ih =>
    obtain ⟨k0, v0⟩ := hd
    by_cases h0 : k0 = k'
    · subst h0
      simpa [kvDelete, kvGet, List.filter_cons, h] using ih
    · by_cases hk : k = k0
      · simp [kvDelete, kvGet, List.filter_cons, h0, hk]
      · simpa [kvDelete, kvGet, List.filter_cons, h0, hk] using ih

/-! ## BBoltStore (internal/metadata/bbolt/bbolt.go)

One field per bbolt bucket the claims touch; `New` pre-creates them all
empty.  `mustEncode`/`mustDecode` round-trip JSON and are the identity
here.  `nowUnix()` becomes the explicit `now` argument. -/

structure BBoltState where
  buckets : List (String × BucketMetadata)
  objects : List (String × ObjectMetadata)
  multipart : List (String × MultipartUploadMetadata)
  parts : List (String × PartMetadata)
  versioning : List (String × BucketVersioning)
deriving Repr, DecidableEq

/-- The store as `New` leaves it on a fresh directory. -/
def emptyBBoltState : BBoltState :=
  { buckets := [], objects := [], multipart := [], parts := [], versioning := [] }

/-- `BBoltStore.CreateBucket`: writes a `BucketMetadata{Name, CreationDate}`
record under the bucket's name (remaining fields zero-valued). -/
def createBucket (now : Int) (st : BBoltState) (bucket : String) : BBoltState :=
  let meta : BucketMetadata :=
    { Name := bucket, CreationDate := now, Owner := "", Region := "" }
  { st with buckets := kvPut st.buckets bucket meta }

/-- `BBoltStore.DeleteBucket`: deletes the bucket record — nothing else. -/
def deleteBucket (st : BBoltState) (bucket : String) : BBoltState :=
  { st with buckets := kvDelete st.buckets bucket }

/-- `BBoltStore.GetBucket` (`none` is the "bucket not found" error). -/
def getBucket (st : BBoltState) (bucket : String) : Option BucketMetadata :=
  kvGet st.buckets bucket

/-- `BBoltStore.PutObject`: stores the metadata under `bucket + "/" + key`. -/
def putObject (st : BBoltState) (bucket key : String) (meta : ObjectMetadata) : BBoltState :=
  { st with objects := kvPut st.objects (bucket ++ "/" ++ key) meta }

/-- `BBoltStore.GetObject`: reads `bucket + "/" + key`; the `versionID`
argument is accepted and ignored by the source (`none` is the
"object not found" error). -/
def getObject (st : BBoltState) (bucket key versionID : String) : Option ObjectMetadata :=
  kvGet st.objects (bucket ++ "/" ++ key)

/-- `BBoltStore.DeleteObject`: deletes `bucket + "/" + key`; the `versionID`
argument is accepted and ignored by the source. -/
def deleteObject (st : BBoltState) (bucket key versionID : String) : BBoltState :=
  { st with objects := kvDelete st.objects (bucket ++ "/" ++ key) }

/-- Number of records the `objects` namespace holds for `(bucket, key)` —
the store's notion of "how many versions of this key exist". -/
def objectVersionCount (st : BBoltState) (bucket key : String) : Nat :=
  (st.objects.filter (fun kv => kv.1 = bucket ++ "/" ++ key)).length

/-- The cursor loop of `BBoltStore.ListObjects`: `cursor.Seek(prefixKey)`
positions at the first key `≥ bucket + "/" + prefix` (`dropWhile` on the
sorted list), iteration continues while the key still starts with
`bucket + "/"` (the loop `break`s otherwise) and fewer than `maxKeys`
entries were collected. -/
def listObjectsScan (objs : List (String × ObjectMetadata)) (bucket pfx : String)
    (maxKeys : Nat) : List (String × ObjectMetadata) :=
  ((objs.dropWhile (fun kv => strLt kv.1 (bucket ++ "/" ++ pfx))).takeWhile
      (fun kv => strHasPfx kv.1 (bucket ++ "/"))).take maxKeys

/-- `BBoltStore.ListObjects`: `opts.MaxKeys` defaults to 1000 when 0; the
decoded metadata values are returned. -/
def listObjects (st : BBoltState) (bucket pfx : String) (maxKeys : Nat) :
    List ObjectMetadata :=
  (listObjectsScan st.objects bucket pfx (if maxKeys = 0 then 1000 else maxKeys)).map
    Prod.snd

/-- `BBoltStore.CreateMultipartUpload`: writes the upload record under
`bucket + "/" + key + "/" + uploadID`, copying the carrier metadata. -/
def createMultipartUpload (now : Int) (st : BBoltState) (bucket key uploadID : String)
    (meta : ObjectMetadata) : BBoltState :=
  let multiMeta : MultipartUploadMetadata :=
    { UploadID := uploadID, Key := key, Bucket := bucket, Initiated := now,
      Metadata := meta.Metadata }
  let multiKey := bucket ++ "/" ++ key ++ "/" ++ uploadID
  { st with multipart := kvPut st.multipart multiKey multiMeta }

/-- The part record key `fmt.Sprintf("%s/%s/%s/%d", ...)`. -/
def partRecordKey (bucket key uploadID : String) (partNumber : Int) : String :=
  bucket ++ "/" ++ key ++ "/" ++ uploadID ++ "/" ++ toString partNumber

/-- `BBoltStore.PutPart`: stores the staged part record. -/
def putPart (st : BBoltState) (bucket key uploadID : String) (partNumber : Int)
    (partMeta : PartMetadata) : BBoltState :=
  { st with parts := kvPut st.parts (partRecordKey bucket key uploadID partNumber) partMeta }

/-- `BBoltStore.CompleteMultipartUpload`: deletes the upload record, then
deletes the part records numbered `1 .. len(parts)` (the loop
`for i := 1; i <= len(parts); i++` — the counter `i`, not the part numbers
listed in the manifest).  No validation is performed and no error path is
reachable, so the operation is total. -/
def completeMultipartUpload (st : BBoltState) (bucket key uploadID : String)
    (parts : List PartInfo) : BBoltState :=
  { st with
    multipart := kvDelete st.multipart (bucket ++ "/" ++ key ++ "/" ++ uploadID),
    parts := (List.range parts.length).foldl
      (fun acc i => kvDelete acc (partRecordKey bucket key uploadID (Int.ofNat (i + 1))))
      st.parts }

/-- `BBoltStore.AbortMultipartUpload`: deletes the upload record only. -/
def abortMultipartUpload (st : BBoltState) (bucket key uploadID : String) : BBoltState :=
  { st with multipart := kvDelete st.multipart (bucket ++ "/" ++ key ++ "/" ++ uploadID) }

/-- `BBoltStore.PutBucketVersioning`. -/
def putBucketVersioning (st : BBoltState) (bucket : String) (v : BucketVersioning) :
    BBoltState :=
  { st with versioning := kvPut st.versioning bucket v }

/-- `BBoltStore.GetBucketVersioning` (a missing record decodes to the
zero-valued configuration). -/
def getBucketVersioning (st : BBoltState) (bucket : String) : BucketVersioning :=
  (kvGet st.versioning bucket).getD { Status := "" }

/-! ## ObjectLock (internal/locking)

The in-process retention / legal-hold manager.  Its three Go maps become
association lists with `kvGet`/`kvPut`/`kvDelete` lookup-update semantics;
`time.Now()` is the explicit `now`; each `fmt.Errorf` failure becomes a
constructor of an error enumeration. -/

/-- `locking.ObjectLockConfig`. -/
structure ObjectLockConfig where
  Enabled : Bool
  RetentionMode : String
  RetentionDays : Int
  RetentionYears : Int
deriving Repr, DecidableEq

/-- `locking.RetentionPolicy`. -/
structure RetentionPolicy where
  Bucket : String
  Key : String
  Mode : String
  RetainUntil : Int
  CreatedAt : Int
  CreatedBy : String
deriving Repr, DecidableEq

/-- `locking.LegalHold`. -/
structure LegalHold where
  Bucket : String
  Key : String
  Status : String
  CreatedAt : Int
  CreatedBy : String
deriving Repr, DecidableEq

/-- The fields of `locking.ObjectLock`. -/
structure ObjectLockState where
  locks : List (String × ObjectLockConfig)
  retention : List (String × RetentionPolicy)
  legalHolds : List (String × LegalHold)
deriving Repr, DecidableEq

/-- `locking.NewObjectLock()`: all three maps empty. -/
def emptyObjectLockState : ObjectLockState :=
  { locks := [], retention := [], legalHolds := [] }

/-- `ObjectLock.EnableObjectLock` (never fails). -/
def enableObjectLock (st : ObjectLockState) (bucket mode : String) (days years : Int) :
    ObjectLockState :=
  let cfg : ObjectLockConfig :=
    { Enabled := true, RetentionMode := mode, RetentionDays := days,
      RetentionYears := years }
  { st with locks := kvPut st.locks bucket cfg }

/-- `ObjectLock.isLockEnabled`. -/
def isLockEnabled (st : ObjectLockState) (bucket : String) : Bool :=
  match kvGet st.locks bucket with
  | some lock => lock.Enabled
  | none => false

/-- The `fmt.Errorf` failures of `ObjectLock.SetRetention`. -/
inductive SetRetentionErr where
  | lockNotEnabled
  | invalidMode
  | cannotReduce
deriving Repr, DecidableEq

/-- `ObjectLock.SetRetention`: requires the bucket's lock to be enabled and
a valid mode; when the bucket's configured `RetentionMode` is COMPLIANCE
and the object's existing policy is COMPLIANCE, a `retainUntil` before the
existing one is rejected; otherwise the policy record is replaced. -/
def setRetention (now : Int) (st : ObjectLockState) (bucket key mode : String)
    (retainUntil : Int) (createdBy : String) : Except SetRetentionErr ObjectLockState :=
  let keyStr := bucket ++ "/" ++ key
  let pol : RetentionPolicy :=
    { Bucket := bucket, Key := key, Mode := mode, RetainUntil := retainUntil,
      CreatedAt := now, CreatedBy := createdBy }
  let updated : ObjectLockState := { st with retention := kvPut st.retention keyStr pol }
  match kvGet st.locks bucket with
  | none => .error .lockNotEnabled
  | some lock =>
    if lock.Enabled = false then .error .lockNotEnabled
    else if mode ≠ "GOVERNANCE" ∧ mode ≠ "COMPLIANCE" then .error .invalidMode
    else if lock.RetentionMode = "COMPLIANCE" then
      match kvGet st.retention keyStr with
      | some existing =>
        if existing.Mode = "COMPLIANCE" ∧ retainUntil < existing.RetainUntil then
          .error .cannotReduce
        else .ok updated
      | none => .ok updated
    else .ok updated

/-- `ObjectLock.GetRetention`. -/
def getRetention (st : ObjectLockState) (bucket key : String) : Option RetentionPolicy :=
  kvGet st.retention (bucket ++ "/" ++ key)

/-- The `fmt.Errorf` failures of `ObjectLock.RemoveRetention`. -/
inductive RemoveRetentionErr where
  | complianceLocked
  | underRetention (retainUntil : Int)
deriving Repr, DecidableEq

/-- `ObjectLock.RemoveRetention`: a missing policy is a successful no-op; a
COMPLIANCE policy is rejected before the expiry test; an unexpired policy
is rejected; otherwise the record is deleted.  The `requestingUser`
argument is accepted and never consulted by the source. -/
def removeRetention (now : Int) (st : ObjectLockState) (bucket key requestingUser : String) :
    Except RemoveRetentionErr ObjectLockState :=
  let keyStr := bucket ++ "/" ++ key
  match kvGet st.retention keyStr with
  | none => .ok st
  | some policy =>
    if policy.Mode = "COMPLIANCE" then .error .complianceLocked
    else if now < policy.RetainUntil then .error (.underRetention policy.RetainUntil)
    else .ok { st with retention := kvDelete st.retention keyStr }

/-- The `fmt.Errorf` failure of `ObjectLock.SetLegalHold`. -/
inductive SetLegalHoldErr where
  | lockNotEnabled
deriving Repr, DecidableEq

/-- `ObjectLock.SetLegalHold`. -/
def setLegalHold (now : Int) (st : ObjectLockState) (bucket key status createdBy : String) :
    Except SetLegalHoldErr ObjectLockState :=
  if isLockEnabled st bucket = false then .error .lockNotEnabled
  else
    let hold : LegalHold :=
      { Bucket := bucket, Key := key, Status := status, CreatedAt := now,
        CreatedBy := createdBy }
    .ok { st with legalHolds := kvPut st.legalHolds (bucket ++ "/" ++ key) hold }

/-- The `fmt.Errorf` failures of `ObjectLock.CheckRetention` (the gate
consulted before destructive operations). -/
inductive GateErr where
  | legalHoldActive
  | underRetention (retainUntil : Int)
deriving Repr, DecidableEq

/-- `ObjectLock.CheckRetention`: the legal hold is consulted first — status
`"ON"` fails immediately; otherwise any retention policy (of either mode)
with `now < RetainUntil` fails; otherwise the gate passes (`none`). -/
def checkRetention (st : ObjectLockState) (bucket key : String) (now : Int) :
    Option GateErr :=
  let keyStr := bucket ++ "/" ++ key
  let holdErr : Option GateErr :=
    match kvGet st.legalHolds keyStr with
    | some hold => if hold.Status = "ON" then some .legalHoldActive else none
    | none => none
  match holdErr with
  | some e => some e
  | none =>
    match kvGet st.retention keyStr with
    | some policy =>
      if now < policy.RetainUntil then some (.underRetention policy.RetainUntil)
      else none
    | none => none

/-! ## GenerateETag (internal/util) -/

/-- The character table of `encoding/hex`. -/
def hexDigitTable : List Char := "0123456789abcdef".data

/-- `hex.EncodeToString` of one byte (high nibble then low nibble). -/
def hexByte (b : Nat) : List Char :=
  [hexDigitTable.getD (b / 16) '0', hexDigitTable.getD (b % 16) '0']

/-- `hex.EncodeToString` over the byte slice. -/
def hexEncodeBytes (bs : List Nat) : String :=
  String.mk (bs.foldr (fun b acc => hexByte b ++ acc) [])

/-- `util.GenerateETag`: reads 16 bytes from `crypto/rand` (the explicit
`randomBytes` argument) and returns their hex encoding wrapped in double
quotes — the payload is never an input. -/
def generateETag (randomBytes : List Nat) : String :=
  "\"" ++ hexEncodeBytes randomBytes ++ "\""

/-! ## Router.DeleteObject option construction (internal/api/router.go) -/

/-- `engine.DeleteObjectOptions` exactly as the router populates it: the
handler sets only `VersionID`. -/
structure DeleteObjectOptions where
  VersionID : String
deriving Repr, DecidableEq

/-- The options `Router.DeleteObject` passes to the engine, as a function
of the request's query parameters and headers: `VersionID` is
`req.URL.Query().Get("versionId")`; no header — in particular not
`x-amz-bypass-governance-retention` — is consulted. -/
def routerDeleteObjectOptions (query : String → String) (header : String → String) :
    DeleteObjectOptions :=
  { VersionID := query "versionId" }

/-! ## Helper lemmas -/

theorem kvDelete_filter_self {V : Type} (l : List (String × V)) (k : String) :
    (kvDelete l k).filter (fun kv => kv.1 = k) = [] := by
  induction l with
  | nil => rfl
  | cons hd t ih =>
    obtain ⟨k0, v0⟩ := hd
    by_cases h0 : k0 = k
    · simpa [kvDelete, List.filter_cons, h0] using ih
    · simpa [kvDelete, List.filter_cons, h0] using ih

theorem kvGet_foldl_kvDelete_none {V : Type} (ks : List String)
    (l : List (String × V)) (k : String) (h : kvGet l k = none) :
    kvGet (ks.foldl kvDelete l) k = none := by
  induction ks generalizing l with
  | nil => simpa using h
  | cons k0 t ih =>
    simp only [List.foldl_cons]
    refine ih (kvDelete l k0) ?_
    by_cases hk : k = k0
    · subst hk
      exact kvGet_kvDelete_self l k
    · rw [kvGet_kvDelete_ne l k k0 hk]
      exact h

theorem takeWhile_pred {V : Type} (q : V → Bool) (l : List V) (x : V)
    (hx : x ∈ l.takeWhile q) : q x = true := by
  induction l with
  | nil => simp [List.takeWhile] at hx
  | cons hd t ih =>
    rw [List.takeWhile_cons] at hx
    by_cases hp : q hd
    · simp [hp] at hx
      rcases hx with hx | hx
      · rwa [hx]
      · exact ih hx
    · simp [hp] at hx

theorem kvGet_foldl_kvDelete_mem {V : Type} (ks : List String)
    (l : List (String × V)) (k : String) (h : k ∈ ks) :
    kvGet (ks.foldl kvDelete l) k = none := by
  induction ks generalizing l with
  | nil => cases h
  | cons k0 t ih =>
    simp only [List.foldl_cons]
    rcases List.mem_cons.mp h with h0 | h0
    · subst h0
      exact kvGet_foldl_kvDelete_none t (kvDelete l k) k (kvGet_kvDelete_self l k)
    · exact ih (kvDelete l k0) h0

/-! ## Claim C1 -/

/-- First version's metadata as the engine would store it for C1. -/
def c1Meta1 : ObjectMetadata :=
  { Key := "k", Bucket := "b", Size := 2, ETag := "\"e1\"", ContentType := "text/plain",
    ContentEncoding := "", CacheControl := "", Metadata := [], StorageClass := "",
    VersionID := "v1", IsLatest := true, IsDeleteMarker := false, LastModified := 1,
    Expires := 0, Parts := [] }

/-- Second version's metadata for C1. -/
def c1Meta2 : ObjectMetadata :=
  { c1Meta1 with ETag := "\"e2\"", VersionID := "v2", LastModified := 2 }

/-- Fresh store, versioning enabled on `b`, two puts on `(b, k)`, then a
delete with no versionID. -/
def c1FinalState : BBoltState :=
  deleteObject
    (putObject
      (putObject
        (putBucketVersioning (createBucket 0 emptyBBoltState "b") "b" { Status := "Enabled" })
        "b" "k" c1Meta1)
      "b" "k" c1Meta2)
    "b" "k" ""

/-- Claim C1 (counterexample): under bucket versioning status `Enabled`,
two `PutObject`s on `(b, k)` followed by a `DeleteObject` with no
versionID leave the store with ZERO records for the key — not three
versions — and `GetObject` with the first version's versionID fails
instead of returning the first payload.  The state is built by the store's
own operations from a fresh store. -/
theorem putObject_versioning_counterexample :
    getBucketVersioning c1FinalState "b" = { Status := "Enabled" } ∧
    objectVersionCount c1FinalState "b" "k" = 0 ∧
    getObject c1FinalState "b" "k" "v1" = none ∧
    listObjects c1FinalState "b" "" 0 = [] := by decide

/-- Claim C1 (amended): the bbolt metadata store keeps exactly one record
per `(bucket, key)` regardless of the bucket's versioning status and of
any versionID: a second `PutObject` replaces the first record and
`GetObject` returns it for every requested versionID; `DeleteObject`
removes the record, after which `GetObject` fails for every versionID and
the store holds zero records for the key. -/
theorem putObject_single_record (st : BBoltState) (bucket key : String)
    (m1 m2 : ObjectMetadata) (vid vid' : String) :
    getObject (putObject (putObject st bucket key m1) bucket key m2) bucket key vid =
      some m2 ∧
    getObject (deleteObject (putObject (putObject st bucket key m1) bucket key m2)
      bucket key "") bucket key vid' = none ∧
    objectVersionCount (deleteObject (putObject (putObject st bucket key m1) bucket key m2)
      bucket key "") bucket key = 0 := by
  refine ⟨?_, ?_, ?_⟩
  · exact kvGet_kvPut_self _ _ _
  · exact kvGet_kvDelete_self _ _
  · simp only [objectVersionCount, deleteObject, putObject]
    rw [kvDelete_filter_self]
    rfl

/-! ## Claims C2, C3, C4, C10 — retention / legal-hold gate -/

/-- The bucket-level lock configuration for C2 (COMPLIANCE default). -/
def c2CfgCompliance : ObjectLockConfig :=
  { Enabled := true, RetentionMode := "COMPLIANCE", RetentionDays := 0, RetentionYears := 1 }

/-- The existing COMPLIANCE policy on `(b, k)` for C2. -/
def c2Policy : RetentionPolicy :=
  { Bucket := "b", Key := "k", Mode := "COMPLIANCE", RetainUntil := 100, CreatedAt := 0, CreatedBy := "alice" }

/-- C2's concrete lock state: object lock enabled on `b` with default mode
COMPLIANCE, and an existing COMPLIANCE policy on `(b, k)` retained until
instant 100. -/
def c2State : ObjectLockState :=
  { locks := [("b", c2CfgCompliance)], retention := [("b/k", c2Policy)], legalHolds := [] }

/-- The GOVERNANCE policy the mode-switching call records. -/
def c2PolicyAfter : RetentionPolicy :=
  { Bucket := "b", Key := "k", Mode := "GOVERNANCE", RetainUntil := 100, CreatedAt := 0, CreatedBy := "admin" }

/-- The state C2's mode-switching call produces. -/
def c2StateAfter : ObjectLockState :=
  { c2State with retention := [("b/k", c2PolicyAfter)] }

/-- Claim C2 (counterexample): at instant 0 — well before the policy's
`retainUntil` of 100 — `SetRetention` switching the mode of the
COMPLIANCE-locked object `(b, k)` to GOVERNANCE (same `retainUntil`)
succeeds and records the GOVERNANCE policy, although the claim requires
every retention-weakening call, including a mode switch away from
COMPLIANCE, to fail until `now ≥ retainUntil`. -/
theorem setRetention_mode_switch_counterexample :
    (setRetention 0 c2State "b" "k" "GOVERNANCE" 100 "admin").toOption = some c2StateAfter ∧
    (getRetention c2StateAfter "b" "k").map RetentionPolicy.Mode = some "GOVERNANCE" := by
  decide

/-- Claim C2 (amended): for an object whose stored policy is COMPLIANCE
with `retainUntil` in the future, the deletion gate (`CheckRetention`)
fails for every caller — it takes no caller identity and no bypass input —
until `now ≥ retainUntil`; and, provided the bucket's configured default
retention mode is COMPLIANCE, `SetRetention` with a shorter `retainUntil`
fails (`cannotReduce`) for either proposed mode.  Switching the mode away
from COMPLIANCE is not prevented: with `retainUntil` not earlier than the
existing one, `SetRetention(mode = GOVERNANCE)` succeeds and replaces the
COMPLIANCE policy. -/
theorem compliance_retention_gate (st : ObjectLockState) (bucket key u : String)
    (now tShort tLater : Int) (cfg : ObjectLockConfig) (pol : RetentionPolicy)
    (hcfg : kvGet st.locks bucket = some cfg)
    (hEn : cfg.Enabled = true)
    (hBucketMode : cfg.RetentionMode = "COMPLIANCE")
    (hpol : getRetention st bucket key = some pol)
    (hpolMode : pol.Mode = "COMPLIANCE") :
    (now < pol.RetainUntil → checkRetention st bucket key now ≠ none) ∧
    (∀ m, (m = "GOVERNANCE" ∨ m = "COMPLIANCE") → tShort < pol.RetainUntil →
      setRetention now st bucket key m tShort u = .error .cannotReduce) ∧
    (pol.RetainUntil ≤ tLater →
      setRetention now st bucket key "GOVERNANCE" tLater u =
        .ok { st with retention := kvPut st.retention (bucket ++ "/" ++ key) (RetentionPolicy.mk bucket key "GOVERNANCE" tLater now u) }) := by
  have hpol' : kvGet st.retention (bucket ++ "/" ++ key) = some pol := hpol
  refine ⟨?_, ?_, ?_⟩
  · intro hfut
    unfold checkRetention
    cases hH : kvGet st.legalHolds (bucket ++ "/" ++ key) with
    | none => simp [hH, hpol', hfut]
    | some hold =>
      by_cases hs : hold.Status = "ON"
      · simp [hH, hs]
      · simp [hH, hs, hpol', hfut]
  · intro m hm hshort
    have hmn : ¬(m ≠ "GOVERNANCE" ∧ m ≠ "COMPLIANCE") := by
      rcases hm with hm | hm <;> simp [hm]
    simp [setRetention, hcfg, hEn, hmn, hBucketMode, hpol', hpolMode, hshort]
  · intro hlater
    have hnotshort : ¬(pol.Mode = "COMPLIANCE" ∧ tLater < pol.RetainUntil) := by
      rintro ⟨-, hlt⟩
      exact absurd hlater (not_le.mpr hlt)
    simp [setRetention, hcfg, hEn, hBucketMode, hpol', hnotshort]

/-- Witness for `compliance_retention_gate` at the concrete C2 state: the
gate blocks deletion at instant 0, shortening to 50 is rejected, and the
mode switch at 100 succeeds. -/
theorem compliance_retention_gate_witness :
    checkRetention c2State "b" "k" 0 ≠ none ∧
    setRetention 0 c2State "b" "k" "COMPLIANCE" 50 "admin" = .error .cannotReduce ∧
    (setRetention 0 c2State "b" "k" "GOVERNANCE" 100 "admin").toOption.isSome = true := by
  have h := compliance_retention_gate c2State "b" "k" "admin" 0 50 100
    c2CfgCompliance c2Policy (by decide) (by decide) (by decide) (by decide) (by decide)
  refine ⟨h.1 (by decide), h.2.1 "COMPLIANCE" (Or.inr rfl) (by decide), ?_⟩
  rw [h.2.2 (by decide)]
  rfl

/-- The GOVERNANCE policy on `(b, k)` for C3, retained until instant 100. -/
def c3Policy : RetentionPolicy :=
  { Bucket := "b", Key := "k", Mode := "GOVERNANCE", RetainUntil := 100, CreatedAt := 0, CreatedBy := "alice" }

/-- C3's concrete lock state: object lock enabled on `b` with default mode
GOVERNANCE and a GOVERNANCE policy on `(b, k)`. -/
def c3State : ObjectLockState :=
  { locks := [("b", { Enabled := true, RetentionMode := "GOVERNANCE", RetentionDays := 0, RetentionYears := 1 })],
    retention := [("b/k", c3Policy)], legalHolds := [] }

/-- A request-header table carrying the documented governance-bypass
header. -/
def c3BypassHeader : String → String :=
  fun h => if h = "x-amz-bypass-governance-retention" then "true" else ""

/-- Claim C3 (counterexample): with a GOVERNANCE policy retained until
instant 100, the deletion gate fails at instant 0 even for a request that
carries `x-amz-bypass-governance-retention: true` — the options the router
passes to the engine are identical whether or not the header is present,
so the claimed bypass path does not exist. -/
theorem governance_bypass_counterexample :
    checkRetention c3State "b" "k" 0 = some (.underRetention 100) ∧
    routerDeleteObjectOptions (fun _ => "") c3BypassHeader =
      routerDeleteObjectOptions (fun _ => "") (fun _ => "") := by
  exact ⟨by decide, rfl⟩

/-- Claim C3 (amended): GOVERNANCE retention with `retainUntil` in the
future blocks deletion exactly like COMPLIANCE: `CheckRetention` never
inspects the policy's mode and takes no bypass or caller input, and
`Router.DeleteObject` builds its engine options from the `versionId` query
parameter alone — the `x-amz-bypass-governance-retention` header is never
read — so no bypass path exists for GOVERNANCE (nor for COMPLIANCE). -/
theorem governance_no_bypass (st : ObjectLockState) (bucket key : String)
    (now : Int) (pol : RetentionPolicy)
    (hpol : getRetention st bucket key = some pol)
    (hmode : pol.Mode = "GOVERNANCE")
    (hfut : now < pol.RetainUntil) :
    checkRetention st bucket key now ≠ none ∧
    (∀ query h1 h2, routerDeleteObjectOptions query h1 = routerDeleteObjectOptions query h2) := by
  have hpol' : kvGet st.retention (bucket ++ "/" ++ key) = some pol := hpol
  refine ⟨?_, fun _ _ _ => rfl⟩
  unfold checkRetention
  cases hH : kvGet st.legalHolds (bucket ++ "/" ++ key) with
  | none => simp [hH, hpol', hfut]
  | some hold =>
    by_cases hs : hold.Status = "ON"
    · simp [hH, hs]
    · simp [hH, hs, hpol', hfut]

/-- Witness for `governance_no_bypass` at the concrete C3 state. -/
theorem governance_no_bypass_witness :
    checkRetention c3State "b" "k" 0 ≠ none ∧
    (∀ query h1 h2, routerDeleteObjectOptions query h1 = routerDeleteObjectOptions query h2) :=
  governance_no_bypass c3State "b" "k" 0 c3Policy (by decide) (by decide) (by decide)

/-- The active legal hold on `(b, k)` for C4. -/
def c4Hold : LegalHold :=
  { Bucket := "b", Key := "k", Status := "ON", CreatedAt := 0, CreatedBy := "alice" }

/-- C4's concrete lock state: legal hold ON together with a COMPLIANCE
policy whose `retainUntil` (50) has already passed at the instants the
witness uses. -/
def c4State : ObjectLockState :=
  { locks := [("b", c2CfgCompliance)],
    retention := [("b/k", { Bucket := "b", Key := "k", Mode := "COMPLIANCE", RetainUntil := 50, CreatedAt := 0, CreatedBy := "alice" })],
    legalHolds := [("b/k", c4Hold)] }

/-- Claim C4: whenever the stored legal hold for `(bucket, key)` has
status `ON`, the destructive-operation gate `CheckRetention` fails, for
every retention state and every instant `now` (in particular when
`retainUntil` has passed), and the failure is the legal-hold one — the
hold is checked before retention. -/
theorem legal_hold_gate (st : ObjectLockState) (bucket key : String) (now : Int)
    (hold : LegalHold)
    (hh : kvGet st.legalHolds (bucket ++ "/" ++ key) = some hold)
    (hon : hold.Status = "ON") :
    checkRetention st bucket key now = some .legalHoldActive := by
  unfold checkRetention
  simp [hh, hon]

/-- Witness for `legal_hold_gate`: at instant 1000 the COMPLIANCE
retention of `c4State` has expired, yet the gate still fails with the
legal-hold error. -/
theorem legal_hold_gate_witness :
    checkRetention c4State "b" "k" 1000 = some .legalHoldActive :=
  legal_hold_gate c4State "b" "k" 1000 c4Hold (by decide) (by decide)

/-- Claim C10: `RemoveRetention` rejects a stored COMPLIANCE policy at
every instant — the COMPLIANCE test precedes the expiry test, so the
record can never be removed; for a non-COMPLIANCE policy removal fails
while `now < retainUntil` and succeeds (deleting the record) once
`retainUntil ≤ now`; removing a non-existent policy succeeds leaving the
state unchanged. -/
theorem removeRetention_cases (now : Int) (st : ObjectLockState) (bucket key u : String) :
    (∀ policy, getRetention st bucket key = some policy → policy.Mode = "COMPLIANCE" →
      removeRetention now st bucket key u = .error .complianceLocked) ∧
    (∀ policy, getRetention st bucket key = some policy → policy.Mode ≠ "COMPLIANCE" →
      (now < policy.RetainUntil →
        removeRetention now st bucket key u = .error (.underRetention policy.RetainUntil)) ∧
      (policy.RetainUntil ≤ now →
        removeRetention now st bucket key u =
          .ok { st with retention := kvDelete st.retention (bucket ++ "/" ++ key) } ∧
        getRetention { st with retention := kvDelete st.retention (bucket ++ "/" ++ key) } bucket key = none)) ∧
    (getRetention st bucket key = none → removeRetention now st bucket key u = .ok st) := by
  refine ⟨?_, ?_, ?_⟩
  · intro policy hp hm
    have hp' : kvGet st.retention (bucket ++ "/" ++ key) = some policy := hp
    simp [removeRetention, hp', hm]
  · intro policy hp hm
    have hp' : kvGet st.retention (bucket ++ "/" ++ key) = some policy := hp
    constructor
    · intro hfut
      simp [removeRetention, hp', hm, hfut]
    · intro hpast
      have hnf : ¬now < policy.RetainUntil := not_lt.mpr hpast
      refine ⟨by simp [removeRetention, hp', hm, hnf], ?_⟩
      exact kvGet_kvDelete_self st.retention (bucket ++ "/" ++ key)
  · intro hp
    have hp' : kvGet st.retention (bucket ++ "/" ++ key) = none := hp
    simp [removeRetention, hp']

/-- Witness for `removeRetention_cases`: at the C4 retention state (a
COMPLIANCE policy retained until 50) removal is rejected at instant 1000,
long after expiry; at the C3 state (GOVERNANCE until 100) removal is
rejected at 0 and succeeds at 100. -/
theorem removeRetention_cases_witness :
    removeRetention 1000 c4State "b" "k" "root" = .error .complianceLocked ∧
    removeRetention 0 c3State "b" "k" "root" = .error (.underRetention 100) ∧
    removeRetention 100 c3State "b" "k" "root" =
      .ok { c3State with retention := kvDelete c3State.retention ("b" ++ "/" ++ "k") } := by
  refine ⟨?_, ?_, ?_⟩
  · exact (removeRetention_cases 1000 c4State "b" "k" "root").1
      { Bucket := "b", Key := "k", Mode := "COMPLIANCE", RetainUntil := 50, CreatedAt := 0, CreatedBy := "alice" }
      (by decide) (by decide)
  · exact ((removeRetention_cases 0 c3State "b" "k" "root").2.1 c3Policy (by decide) (by decide)).1 (by decide)
  · exact (((removeRetention_cases 100 c3State "b" "k" "root").2.1 c3Policy (by decide) (by decide)).2 (by decide)).1

/-! ## Claims C5, C6 — multipart completion at the store -/

/-- Carrier metadata for C5's upload. -/
def c5ObjMeta : ObjectMetadata :=
  { Key := "k", Bucket := "b", Size := 0, ETag := "", ContentType := "", ContentEncoding := "",
    CacheControl := "", Metadata := [("a", "1")], StorageClass := "", VersionID := "",
    IsLatest := false, IsDeleteMarker := false, LastModified := 0, Expires := 0, Parts := [] }

/-- A fresh store with bucket `b` and one in-flight upload `u1` on `(b, k)`. -/
def c5State : BBoltState :=
  createMultipartUpload 5 (createBucket 0 emptyBBoltState "b") "b" "k" "u1" c5ObjMeta

/-- Claim C5 (counterexample): `CompleteMultipartUpload` with an EMPTY
manifest on the existing upload `u1` does not fail — the store runs it to
completion and DELETES the upload record, where the claim requires an
`InvalidPart` failure with the upload record unchanged.  (The same code
path runs for out-of-order and duplicate manifests and for unknown
uploadIDs: the function validates nothing.) -/
theorem completeMultipart_empty_manifest_counterexample :
    kvGet c5State.multipart ("b" ++ "/" ++ "k" ++ "/" ++ "u1") ≠ none ∧
    kvGet (completeMultipartUpload c5State "b" "k" "u1" []).multipart
      ("b" ++ "/" ++ "k" ++ "/" ++ "u1") = none := by
  decide

/-- Claim C5 (amended): the store-level `CompleteMultipartUpload` performs
no manifest validation and cannot fail: for EVERY manifest — empty,
out-of-order, with duplicate part numbers — and every uploadID, known or
not, it runs to completion, leaves the object and bucket namespaces
untouched, and deletes the upload record (a no-op when absent). -/
theorem completeMultipart_no_validation (st : BBoltState) (bucket key uploadID : String)
    (manifest : List PartInfo) :
    (completeMultipartUpload st bucket key uploadID manifest).objects = st.objects ∧
    (completeMultipartUpload st bucket key uploadID manifest).buckets = st.buckets ∧
    kvGet (completeMultipartUpload st bucket key uploadID manifest).multipart
      (bucket ++ "/" ++ key ++ "/" ++ uploadID) = none :=
  ⟨rfl, rfl, kvGet_kvDelete_self st.multipart (bucket ++ "/" ++ key ++ "/" ++ uploadID)⟩

/-- Carrier metadata for C6's upload. -/
def c6ObjMeta : ObjectMetadata :=
  { Key := "k", Bucket := "b", Size := 0, ETag := "", ContentType := "", ContentEncoding := "",
    CacheControl := "", Metadata := [], StorageClass := "", VersionID := "",
    IsLatest := false, IsDeleteMarker := false, LastModified := 0, Expires := 0, Parts := [] }

/-- Staged part number 2 of upload `u1`. -/
def c6PartMeta2 : PartMetadata :=
  { UploadID := "u1", Key := "k", Bucket := "b", PartNumber := 2, ETag := "\"p2\"", Size := 4, LastModified := 1 }

/-- Staged part number 5 of upload `u1`. -/
def c6PartMeta5 : PartMetadata :=
  { UploadID := "u1", Key := "k", Bucket := "b", PartNumber := 5, ETag := "\"p5\"", Size := 4, LastModified := 2 }

/-- A store holding upload `u1` with staged parts numbered 2 and 5. -/
def c6State : BBoltState :=
  putPart
    (putPart (createMultipartUpload 5 (createBucket 0 emptyBBoltState "b") "b" "k" "u1" c6ObjMeta)
      "b" "k" "u1" 2 c6PartMeta2)
    "b" "k" "u1" 5 c6PartMeta5

/-- The client manifest listing part numbers 2 and 5. -/
def c6Manifest : List PartInfo :=
  [{ PartNumber := 2, ETag := "\"p2\"", Size := 4 }, { PartNumber := 5, ETag := "\"p5\"", Size := 4 }]

/-- Claim C6 (counterexample): completing upload `u1` with the manifest
`[2, 5]` (|P| = 2) deletes the staged records numbered 1 and 2 — the loop
counter — NOT the listed part numbers: the staged metadata of listed part
5 is still present afterwards, while part 2 is gone. -/
theorem completeMultipart_noncontiguous_counterexample :
    kvGet (completeMultipartUpload c6State "b" "k" "u1" c6Manifest).parts
      (partRecordKey "b" "k" "u1" 5) = some c6PartMeta5 ∧
    kvGet (completeMultipartUpload c6State "b" "k" "u1" c6Manifest).parts
      (partRecordKey "b" "k" "u1" 2) = none := by
  decide

/-- Claim C6 (amended): a `CompleteMultipartUpload` with client manifest
`P` deletes the upload record for `(bucket, key, uploadID)` and the staged
part records numbered `1 .. |P|` — the loop counter positions — rather
than the part numbers listed in `P`; listed part numbers greater than
`|P|` keep their staged metadata. -/
theorem completeMultipart_deletes_counter_range (st : BBoltState)
    (bucket key uploadID : String) (manifest : List PartInfo) (i : Nat)
    (h1 : 1 ≤ i) (h2 : i ≤ manifest.length) :
    kvGet (completeMultipartUpload st bucket key uploadID manifest).multipart
      (bucket ++ "/" ++ key ++ "/" ++ uploadID) = none ∧
    kvGet (completeMultipartUpload st bucket key uploadID manifest).parts
      (partRecordKey bucket key uploadID (Int.ofNat i)) = none := by
  constructor
  · exact kvGet_kvDelete_self st.multipart (bucket ++ "/" ++ key ++ "/" ++ uploadID)
  · show kvGet ((List.range manifest.length).foldl
      (fun acc j => kvDelete acc (partRecordKey bucket key uploadID (Int.ofNat (j + 1))))
      st.parts) (partRecordKey bucket key uploadID (Int.ofNat i)) = none
    rw [← List.foldl_map (fun j : Nat => partRecordKey bucket key uploadID (Int.ofNat (j + 1)))
      (fun acc s => kvDelete acc s) (List.range manifest.length) st.parts]
    apply kvGet_foldl_kvDelete_mem
    refine List.mem_map.mpr ⟨i - 1, List.mem_range.mpr ?_, ?_⟩
    · omega
    · have : i - 1 + 1 = i := by omega
      rw [this]

/-- Witness for `completeMultipart_deletes_counter_range` at the C6 state
with `i = 2` (the manifest `[2, 5]` has length 2). -/
theorem completeMultipart_deletes_counter_range_witness :
    kvGet (completeMultipartUpload c6State "b" "k" "u1" c6Manifest).multipart
      ("b" ++ "/" ++ "k" ++ "/" ++ "u1") = none ∧
    kvGet (completeMultipartUpload c6State "b" "k" "u1" c6Manifest).parts
      (partRecordKey "b" "k" "u1" (Int.ofNat 2)) = none :=
  completeMultipart_deletes_counter_range c6State "b" "k" "u1" c6Manifest 2
    (by decide) (by decide)

/-! ## Claim C7 — ETag generation -/

/-- Claim C7 (evaluation at the failing input): `GenerateETag` is a
function of the 16 bytes drawn from `crypto/rand` alone — the payload is
not an input — so for the put of `"Hello, World!"` whose random draw is
sixteen zero bytes the reported ETag is the quoted hex of those bytes, not
the payload's MD5 `"65a8e27d8879283831b664bd8b7f0ad4"`; a different draw
yields a different ETag for the same payload. -/
theorem generateETag_random_not_md5 :
    generateETag (List.replicate 16 0) = "\"00000000000000000000000000000000\"" ∧
    generateETag (List.replicate 16 0) ≠ "\"65a8e27d8879283831b664bd8b7f0ad4\"" ∧
    generateETag (List.replicate 16 255) ≠ generateETag (List.replicate 16 0) := by
  decide

/-! ## Claim C8 — DeleteBucket -/

/-- The live object stored in bucket `b` for C8. -/
def c8Meta : ObjectMetadata :=
  { Key := "x", Bucket := "b", Size := 3, ETag := "\"e8\"", ContentType := "", ContentEncoding := "",
    CacheControl := "", Metadata := [], StorageClass := "", VersionID := "",
    IsLatest := true, IsDeleteMarker := false, LastModified := 1, Expires := 0, Parts := [] }

/-- A store where bucket `b` holds a live object `x` AND an in-flight
multipart upload `u9` on key `y`. -/
def c8State : BBoltState :=
  createMultipartUpload 3 (putObject (createBucket 0 emptyBBoltState "b") "b" "x" c8Meta)
    "b" "y" "u9" c8Meta

/-- Claim C8 (counterexample): bucket `b` holds a live object and an
in-flight multipart upload, yet `DeleteBucket("b")` succeeds — the bucket
record is gone afterwards — where the claim requires a `BucketNotEmpty`
failure with the bucket record unchanged. -/
theorem deleteBucket_nonempty_counterexample :
    getObject c8State "b" "x" "" = some c8Meta ∧
    kvGet c8State.multipart ("b" ++ "/" ++ "y" ++ "/" ++ "u9") ≠ none ∧
    getBucket (deleteBucket c8State "b") "b" = none ∧
    getObject (deleteBucket c8State "b") "b" "x" "" = some c8Meta := by
  decide

/-- Claim C8 (amended): `DeleteBucket` unconditionally removes the bucket
record whether or not live objects or in-flight uploads exist; it touches
nothing else — the object, upload and part namespaces are unchanged (their
records become orphans). -/
theorem deleteBucket_unconditional (st : BBoltState) (bucket : String) :
    getBucket (deleteBucket st bucket) bucket = none ∧
    (deleteBucket st bucket).objects = st.objects ∧
    (deleteBucket st bucket).multipart = st.multipart ∧
    (deleteBucket st bucket).parts = st.parts :=
  ⟨kvGet_kvDelete_self st.buckets bucket, rfl, rfl, rfl⟩

/-! ## Claim C9 — ListObjects scan -/

/-- Object metadata stored under key `a1` for C9. -/
def c9Meta1 : ObjectMetadata :=
  { Key := "a1", Bucket := "b", Size := 1, ETag := "\"e91\"", ContentType := "", ContentEncoding := "",
    CacheControl := "", Metadata := [], StorageClass := "", VersionID := "",
    IsLatest := true, IsDeleteMarker := false, LastModified := 1, Expires := 0, Parts := [] }

/-- Object metadata stored under key `z` for C9. -/
def c9Meta2 : ObjectMetadata :=
  { c9Meta1 with Key := "z", ETag := "\"e92\"", LastModified := 2 }

/-- A store with objects `a1` and `z` in bucket `b`, built by the store's
own operations (so its key space is sorted). -/
def c9State : BBoltState :=
  putObject (putObject (createBucket 0 emptyBBoltState "b") "b" "a1" c9Meta1) "b" "z" c9Meta2

/-- Claim C9 (counterexample): listing bucket `b` with prefix `"a"`
returns BOTH objects — the entry with key `z`, which does not begin with
the requested prefix, is included, because the cursor loop only checks
that the key still lies in the bucket (`b/`), not that it still matches
the prefix: the scan runs from the prefix to the end of the bucket's
keyspace. -/
theorem listObjects_prefix_counterexample :
    listObjects c9State "b" "a" 0 = [c9Meta1, c9Meta2] ∧
    strHasPfx c9Meta2.Key "a" = false := by
  decide

/-- Claim C9 (amended): on a store whose object keys are sorted (as the
B+-tree keeps them), every entry `ListObjects` returns has its stored key
inside the bucket — it begins with `bucket + "/"` — and entries come back
in ascending byte-lexicographic key order; but the scan is a seek from
`bucket + "/" + prefix` that continues to the end of the bucket's
keyspace, so returned keys need not begin with the requested prefix. -/
theorem listObjects_scan_properties (st : BBoltState) (bucket pfx : String) (maxKeys : Nat)
    (hs : List.Pairwise (fun a b : String × ObjectMetadata => strLt a.1 b.1 = true) st.objects) :
    (∀ kv ∈ listObjectsScan st.objects bucket pfx maxKeys,
      strHasPfx kv.1 (bucket ++ "/") = true) ∧
    List.Pairwise (fun a b : String × ObjectMetadata => strLt a.1 b.1 = true)
      (listObjectsScan st.objects bucket pfx maxKeys) ∧
    listObjects st bucket pfx maxKeys =
      (listObjectsScan st.objects bucket pfx (if maxKeys = 0 then 1000 else maxKeys)).map
        Prod.snd := by
  refine ⟨?_, ?_, rfl⟩
  · intro kv hkv
    have h1 : kv ∈ (st.objects.dropWhile
        (fun kv => strLt kv.1 (bucket ++ "/" ++ pfx))).takeWhile
        (fun kv => strHasPfx kv.1 (bucket ++ "/")) :=
      List.take_subset _ _ hkv
    have h2 := takeWhile_pred _ _ _ h1
    exact h2
  · have hsub : List.Sublist (listObjectsScan st.objects bucket pfx maxKeys) st.objects := by
      unfold listObjectsScan
      exact ((List.take_sublist _ _).trans (List.takeWhile_sublist _)).trans
        (List.dropWhile_sublist _)
    exact List.Pairwise.sublist hsub hs

/-- Witness for `listObjects_scan_properties` at the concrete C9 state. -/
theorem listObjects_scan_properties_witness :
    (∀ kv ∈ listObjectsScan c9State.objects "b" "a" 1000,
      strHasPfx kv.1 ("b" ++ "/") = true) ∧
    List.Pairwise (fun a b : String × ObjectMetadata => strLt a.1 b.1 = true)
      (listObjectsScan c9State.objects "b" "a" 1000) ∧
    listObjects c9State "b" "a" 1000 =
      (listObjectsScan c9State.objects "b" "a" (if 1000 = 0 then 1000 else 1000)).map
        Prod.snd :=
  listObjects_scan_properties c9State "b" "a" 1000 (by decide)
